import Mathlib

/-!
Verification of the rag-chat-service repository: a shallow embedding of the
generic repository layer (`app/repositories/base.py`), its session and message
specializations (`app/repositories/session.py`, `app/repositories/message.py`),
the entity schemas (`app/models`, `app/database`), and the message route
(`app/routes/message.py`), together with theorems settling the spec's claims.

Conventions of the embedding:
* UUID values are natural numbers below 16^32 (their 128-bit integer value).
* datetimes are natural numbers (an abstract clock tick).
* The relational store is a pair of lists of rows (insertion order = the
  store's natural row order used by the unordered SELECTs of the source).
* A store failure inside a transaction is injected through an explicit
  `storeFails` flag with the raised exception's text `cause`, mirroring the
  `except Exception` branches of the source.
-/

namespace RagChat

/-! ## Characters and hexadecimal digits -/

/-- The open curly brace character (written numerically). -/
def lbrace : Char := Char.ofNat 123

/-- The close curly brace character (written numerically). -/
def rbrace : Char := Char.ofNat 125

/-- Is `c` one of the two brace characters stripped by `str.strip` in
`uuid.UUID.__init__`? -/
def isBraceChar (c : Char) : Bool := c == lbrace || c == rbrace

/-- Is `c` an ASCII hexadecimal digit (as accepted by `int(hex, 16)` for the
32-character UUID hex strings)? -/
def isHexDigitChar (c : Char) : Bool :=
  (48 ≤ c.toNat && c.toNat ≤ 57) ||
  (97 ≤ c.toNat && c.toNat ≤ 102) ||
  (65 ≤ c.toNat && c.toNat ≤ 70)

/-- Numeric value of a hexadecimal digit character. -/
def hexVal (c : Char) : Nat :=
  if 48 ≤ c.toNat && c.toNat ≤ 57 then c.toNat - 48
  else if 97 ≤ c.toNat && c.toNat ≤ 102 then c.toNat - 87
  else if 65 ≤ c.toNat && c.toNat ≤ 70 then c.toNat - 55
  else 0

/-- The lowercase hexadecimal digit character for `d < 16` (as produced by
Python's `%032x` formatting inside `str(uuid.UUID(...))`). -/
def hexChar (d : Nat) : Char :=
  if d < 10 then Char.ofNat (48 + d) else Char.ofNat (87 + d)

/-! ## Python string primitives used by `uuid.UUID.__init__` -/

/-- Does `p` occur at the start of `s`? (Helper for `replaceAll`.) -/
def leadsWith : List Char → List Char → Bool
  | [], _ => true
  | _ :: _, [] => false
  | p :: ps, c :: cs => p == c && leadsWith ps cs

/-- Fuel-driven left-to-right non-overlapping removal of every occurrence of
`pat`, following Python's `str.replace(pat, '')`.  Each step consumes at least
one character of `s`, so fuel `s.length` always suffices. -/
def replaceAllFuel : Nat → List Char → List Char → List Char
  | 0, _, s => s
  | fuel + 1, pat, s =>
    match s with
    | [] => []
    | c :: rest =>
      if pat ≠ [] && leadsWith pat (c :: rest) then
        replaceAllFuel fuel pat ((c :: rest).drop pat.length)
      else
        c :: replaceAllFuel fuel pat rest

/-- Python's `s.replace(pat, '')`: delete every occurrence of `pat` in `s`. -/
def replaceAll (pat s : List Char) : List Char := replaceAllFuel s.length pat s

/-- Python's `s.strip('\x7b\x7d')`: drop leading and trailing brace
characters. -/
def stripBraces (s : List Char) : List Char :=
  ((s.dropWhile isBraceChar).reverse.dropWhile isBraceChar).reverse

/-- Fold a list of hexadecimal digit characters into its value, most
significant digit first (Python's `int(hex, 16)`). -/
def hexFold (s : List Char) : Nat := s.foldl (fun a c => a * 16 + hexVal c) 0

/-- Embedding of CPython's `uuid.UUID(hex=s)` constructor as used by
`uuid.UUID(id)` in the repository: delete every occurrence of `urn:` and
`uuid:`, strip surrounding braces, delete hyphens, then require exactly 32
hexadecimal digits; the result is the 128-bit integer value.  (The exotic
`int(...)` forms — sign prefixes, `0x`, embedded whitespace — cannot fit in
exactly 32 characters of plain hex and are not modelled.)  `none` stands for
the `ValueError` raised on malformed input. -/
def pyUUIDParse (s : String) : Option Nat :=
  let h := replaceAll "uuid:".toList (replaceAll "urn:".toList s.toList)
  let h := replaceAll ['-'] (stripBraces h)
  if h.length = 32 && h.all isHexDigitChar then some (hexFold h) else none

/-- The `k` lowercase hexadecimal digits of `n % 16^k`, most significant
first. -/
def toHexDigits (n : Nat) : Nat → List Char
  | 0 => []
  | k + 1 => toHexDigits (n / 16) k ++ [hexChar (n % 16)]

/-- Group 32 hex digits as 8-4-4-4-12 with hyphen separators. -/
def uuidHyphenate (h : List Char) : List Char :=
  h.take 8 ++ '-' :: (h.drop 8).take 4 ++ '-' :: (h.drop 12).take 4
    ++ '-' :: (h.drop 16).take 4 ++ '-' :: h.drop 20

/-- Canonical string form of a UUID value: `str(uuid.UUID(int=n))`, i.e. the
32 lowercase hex digits in 8-4-4-4-12 groups separated by hyphens. -/
def uuidToString (n : Nat) : String :=
  String.mk (uuidHyphenate (toHexDigits n 32))

/-! ## Entity rows and the relational store

`app/database/session.py` and `app/database/message.py`.  Column nullability
follows SQLAlchemy defaults: non-primary-key columns without `nullable=False`
are nullable, so `ChatSession.name` and `ChatSession.is_favorite` are `Option`s
in the row, while `user_id`, `sender`, `content` are `nullable=False`. -/

/-- A row of the `chat_sessions` table. -/
structure SessionRow where
  id : Nat
  name : Option String
  user_id : String
  is_favorite : Option Bool
  created_at : Nat
  updated_at : Nat
deriving Repr, DecidableEq

/-- A row of the `messages` table.  `context` is the opaque JSON payload,
modelled as a flat key/value list. -/
structure MessageRow where
  id : Nat
  session_id : Nat
  sender : String
  content : String
  context : Option (List (String × String))
  timestamp : Nat
deriving Repr, DecidableEq

/-- The relational store: both tables, rows in insertion order (the natural
row order of the unordered SELECTs in the source). -/
structure Store where
  sessions : List SessionRow
  messages : List MessageRow
deriving Repr, DecidableEq

/-! ## Pydantic schemas (`app/models/session.py`, `app/models/message.py`) -/

/-- `ChatSessionCreate`: the create payload. -/
structure ChatSessionCreate where
  name : Option String
  user_id : String
deriving Repr, DecidableEq

/-- `ChatSessionUpdate` together with Pydantic's fields-set tracking: the outer
`Option` is whether the caller explicitly supplied the field (what
`model_dump(exclude_unset=True)` keeps), the inner value is what was supplied
(which may itself be `null`). -/
structure ChatSessionUpdate where
  name : Option (Option String)
  is_favorite : Option (Option Bool)
deriving Repr, DecidableEq

/-- `ChatSessionResponse`: the response projection; `id` is a plain string and
`is_favorite` a non-optional `bool`. -/
structure ChatSessionResponse where
  id : String
  name : Option String
  user_id : String
  is_favorite : Bool
  created_at : Nat
  updated_at : Nat
deriving Repr, DecidableEq

/-- The Pydantic `Message` model used as both create and update schema of the
message repository.  After validation every field has a value; in particular
`timestamp` always holds either the caller's value or the class-level default
(see `pyMessageModel`). -/
structure MessagePayload where
  sender : String
  content : String
  context : Option (List (String × String))
  timestamp : Nat
  session_id : Option String
deriving Repr, DecidableEq

/-- Constructing a Pydantic `Message` from a request body.  The class body of
`app/models/message.py` evaluates `datetime.now(timezone.utc)` ONCE, at module
import; `importTime` is that constant, and it — not the wall clock of the
request — is substituted whenever the body omits `timestamp`. -/
def pyMessageModel (importTime : Nat) (sender content : String)
    (context : Option (List (String × String))) (timestamp? : Option Nat)
    (session_id : Option String) : MessagePayload :=
  { sender := sender, content := content, context := context,
    timestamp := timestamp?.getD importTime, session_id := session_id }

/-- `MessageResponse`: the response projection; `id` and `session_id` are plain
strings. -/
structure MessageResponse where
  id : String
  session_id : String
  sender : String
  content : String
  context : Option (List (String × String))
  timestamp : Nat
deriving Repr, DecidableEq

/-- `PaginatedMessages` (`app/models/pagination.py`). -/
structure PaginatedMessages where
  messages : List MessageResponse
  total : Nat
  page : Int
  page_size : Int
deriving Repr, DecidableEq

/-! ## Error taxonomy and operation outcomes -/

/-- The `HTTPException`s raised by the repository layer, by status code. -/
inductive RepoError where
  | badRequest (detail : String)
  | notFound (detail : String)
  | internalError (detail : String)
deriving Repr, DecidableEq

/-- View of an `Except` as a sum, to derive decidable equality. -/
def exceptToSum : Except ε α → ε ⊕ α
  | .error e => .inl e
  | .ok a => .inr a

instance [DecidableEq ε] [DecidableEq α] : DecidableEq (Except ε α) := fun x y =>
  decidable_of_iff (exceptToSum x = exceptToSum y)
    (by cases x <;> cases y <;> simp [exceptToSum])

/-- Outcome of one repository call: the returned value or raised error, the
store afterwards, how many store round trips were performed before returning,
and the `logger.error` lines emitted. -/
structure OpResult (α : Type) where
  result : Except RepoError α
  store : Store
  storeAccesses : Nat
  log : List String
deriving Repr, DecidableEq

/-! ## Serialization (`BaseRepository._prepare_data` and `model_validate`) -/

/-- A Python value as it appears in a row's `__dict__`. -/
inductive PyVal where
  | pyUUID (n : Nat)
  | pyStr (s : String)
  | pyNat (n : Nat)
  | pyBool (b : Bool)
  | pyNone
  | pyDict (l : List (String × String))
deriving Repr, DecidableEq

/-- Is the value a structured identifier (`uuid.UUID`) value? -/
def PyVal.isUUID : PyVal → Bool
  | .pyUUID _ => true
  | _ => false

/-- `BaseRepository._prepare_data`: copy the dictionary, converting every
`uuid.UUID` value — whatever its key — to its canonical string form. -/
def prepare_data (d : List (String × PyVal)) : List (String × PyVal) :=
  d.map fun kv =>
    match kv.2 with
    | .pyUUID n => (kv.1, .pyStr (uuidToString n))
    | _ => kv

/-- The `__dict__` of a persisted message row: both `id` and `session_id` are
`uuid.UUID` values, not only the primary key. -/
def messageRowDict (m : MessageRow) : List (String × PyVal) :=
  [("id", .pyUUID m.id), ("session_id", .pyUUID m.session_id),
   ("sender", .pyStr m.sender), ("content", .pyStr m.content),
   ("context", match m.context with | some l => .pyDict l | none => .pyNone),
   ("timestamp", .pyNat m.timestamp)]

/-- `MessageResponse.model_validate` over a prepared dictionary: each declared
field must be present with the declared primitive type (`id`/`session_id` are
`str`, so a residual `uuid.UUID` value would be rejected); `none` stands for a
`ValidationError`. -/
def messageResponseValidate (d : List (String × PyVal)) : Option MessageResponse :=
  match d.lookup "id", d.lookup "session_id", d.lookup "sender",
      d.lookup "content", d.lookup "context", d.lookup "timestamp" with
  | some (.pyStr i), some (.pyStr sid), some (.pyStr sender),
      some (.pyStr content), some ctx, some (.pyNat ts) =>
    match ctx with
    | .pyDict l => some ⟨i, sid, sender, content, some l, ts⟩
    | .pyNone => some ⟨i, sid, sender, content, none, ts⟩
    | _ => none
  | _, _, _, _, _, _ => none

/-- The message response the repository produces for a stored row (shorthand
for the `_prepare_data` + `model_validate` pipeline, which
`prepare_then_validate_message` below proves it equal to). -/
def mkMessageResponse (m : MessageRow) : MessageResponse :=
  { id := uuidToString m.id, session_id := uuidToString m.session_id,
    sender := m.sender, content := m.content, context := m.context,
    timestamp := m.timestamp }

/-- `ChatSessionResponse.model_validate` of a prepared session row:
`is_favorite` is declared `bool` (not `Optional[bool]`), so a `NULL` stored
value fails validation — Pydantic's `ValidationError` is a `ValueError`, which
the repository's `except ValueError` branch then owns.  `none` stands for that
failure. -/
def sessionResponseOf? (r : SessionRow) : Option ChatSessionResponse :=
  match r.is_favorite with
  | some b =>
    some { id := uuidToString r.id, name := r.name, user_id := r.user_id,
           is_favorite := b, created_at := r.created_at,
           updated_at := r.updated_at }
  | none => none

/-! ## The generic repository at its ChatSession instantiation
(`BaseRepository` methods of `app/repositories/base.py`, with
`model = ChatSession`, as bound by `ChatSessionRepository`).

`ChatSession.id` has `python_type == uuid.UUID`, so every method first runs
`uuid.UUID(id)`; its `ValueError` is answered with 400 before any store call.
A store failure inside the transaction (`storeFails`) hits the
`except Exception` branch: log the cause, roll back, raise the generic 500.
`model_validate` runs after `commit`, so its `ValidationError` (a `ValueError`,
caught by `except ValueError` as 400 in `get`/`update`/`delete` and by
`except Exception` as 500 in `create`) leaves the committed change in place. -/

/-- `BaseRepository.create` for chat sessions.  `newId` is the generated
`uuid4` primary key, `now` the store clock applied by the column defaults
(`is_favorite=False`, `created_at`, `updated_at`). -/
def session_create (db : Store) (p : ChatSessionCreate) (newId now : Nat)
    (storeFails : Bool) (cause : String) : OpResult ChatSessionResponse :=
  if storeFails then
    ⟨.error (.internalError "Failed to create chatsession"), db, 1,
     ["Error creating ChatSession: " ++ cause]⟩
  else
    let row : SessionRow :=
      { id := newId, name := p.name, user_id := p.user_id,
        is_favorite := some false, created_at := now, updated_at := now }
    let db' : Store := { db with sessions := db.sessions ++ [row] }
    match sessionResponseOf? row with
    | some resp => ⟨.ok resp, db', 3, []⟩
    | none =>
      ⟨.error (.internalError "Failed to create chatsession"), db', 3,
       ["Error creating ChatSession: " ++ cause]⟩

/-- `BaseRepository.get` for chat sessions. -/
def session_get (db : Store) (id : String) : OpResult ChatSessionResponse :=
  match pyUUIDParse id with
  | none => ⟨.error (.badRequest "Invalid ID format"), db, 0, []⟩
  | some u =>
    match db.sessions.find? (fun r => r.id == u) with
    | none => ⟨.error (.notFound "ChatSession not found"), db, 1, []⟩
    | some r =>
      match sessionResponseOf? r with
      | some resp => ⟨.ok resp, db, 1, []⟩
      | none => ⟨.error (.badRequest "Invalid ID format"), db, 1, []⟩

/-- The SQL `UPDATE ... SET` built from `model_dump(exclude_unset=True)`:
supplied fields take the supplied values, and the `updated_at` column's
`onupdate=utcnow_naive` fires because that column is never among the SET
values. -/
def applyUpdate (r : SessionRow) (p : ChatSessionUpdate) (now : Nat) : SessionRow :=
  { r with name := p.name.getD r.name,
           is_favorite := p.is_favorite.getD r.is_favorite,
           updated_at := now }

/-- `BaseRepository.update` for chat sessions.  The row is committed before
`model_validate` runs, so a serialization failure surfaces as 400
("Invalid ID format", via `except ValueError`) while the change persists. -/
def session_update (db : Store) (id : String) (p : ChatSessionUpdate) (now : Nat)
    (storeFails : Bool) (cause : String) : OpResult ChatSessionResponse :=
  match pyUUIDParse id with
  | none => ⟨.error (.badRequest "Invalid ID format"), db, 0, []⟩
  | some u =>
    if storeFails then
      ⟨.error (.internalError "Failed to update chatsession"), db, 1,
       ["Error updating ChatSession: " ++ cause]⟩
    else
      match db.sessions.find? (fun r => r.id == u) with
      | none => ⟨.error (.notFound "ChatSession not found"), db, 1, []⟩
      | some r =>
        let db' : Store :=
          { db with sessions :=
              db.sessions.map fun s => if s.id == u then applyUpdate s p now else s }
        match sessionResponseOf? (applyUpdate r p now) with
        | some resp => ⟨.ok resp, db', 4, []⟩
        | none => ⟨.error (.badRequest "Invalid ID format"), db', 4, []⟩

/-- `BaseRepository.delete` for chat sessions.  `await self.db.delete` on the
ORM row removes the session; the `ON DELETE CASCADE` of
`messages.session_id` (`app/database/message.py`) removes every owned message
in the same transaction. -/
def session_delete (db : Store) (id : String) (storeFails : Bool)
    (cause : String) : OpResult String :=
  match pyUUIDParse id with
  | none => ⟨.error (.badRequest "Invalid ID format"), db, 0, []⟩
  | some u =>
    if storeFails then
      ⟨.error (.internalError "Failed to delete chatsession"), db, 1,
       ["Error deleting ChatSession: " ++ cause]⟩
    else
      match db.sessions.find? (fun r => r.id == u) with
      | none => ⟨.error (.notFound "ChatSession not found"), db, 1, []⟩
      | some _ =>
        ⟨.ok "ChatSession deleted successfully",
         { sessions := db.sessions.filter fun r => !(r.id == u),
           messages := db.messages.filter fun m => !(m.session_id == u) },
         3, []⟩

/-! ## The message repository (`app/repositories/message.py`) and message
route (`app/routes/message.py`) -/

/-- `BaseRepository.create` at the `Message` instantiation.  The repository
performs no session_id validation of its own: the string is handed to the
store, and every store-level failure — NOT NULL violation when `session_id`
is absent, the UUID conversion `ValueError` raised at flush for a malformed
string, the FOREIGN KEY violation for an unknown session — lands in the one
`except Exception` branch: rollback and the generic 500. -/
def message_create (db : Store) (p : MessagePayload) (newId : Nat) :
    OpResult MessageResponse :=
  match p.session_id with
  | none =>
    ⟨.error (.internalError "Failed to create message"), db, 1,
     ["Error creating Message"]⟩
  | some sidStr =>
    match pyUUIDParse sidStr with
    | none =>
      ⟨.error (.internalError "Failed to create message"), db, 1,
       ["Error creating Message"]⟩
    | some u =>
      if db.sessions.any (fun r => r.id == u) then
        let row : MessageRow :=
          { id := newId, session_id := u, sender := p.sender,
            content := p.content, context := p.context, timestamp := p.timestamp }
        ⟨.ok (mkMessageResponse row), { db with messages := db.messages ++ [row] },
         3, []⟩
      else
        ⟨.error (.internalError "Failed to create message"), db, 2,
         ["Error creating Message"]⟩

/-- The `add_message` route handler: parses the body into the Pydantic
`Message` (class-level `timestamp` default `importTime`), dumps it, injects
the path `session_id` verbatim — no UUID check happens in this route — and
calls `repo.create`.  `now`, the wall clock at creation, could only enter
through the `timestamp` column default `utcnow_naive`, which is unreachable
here because the dumped payload always carries a `timestamp` value. -/
def add_message (db : Store) (importTime now : Nat) (session_id : String)
    (sender content : String) (context : Option (List (String × String)))
    (timestamp? : Option Nat) (newId : Nat) : OpResult MessageResponse :=
  let body := pyMessageModel importTime sender content context timestamp? none
  message_create db { body with session_id := some session_id } newId

/-- `MessageRepository.get_by_session_id`: count the session's messages, then
fetch the slice at OFFSET `(page-1)*page_size` with LIMIT `page_size`, in the
store's natural row order.  (`Int.toNat` is exact on the `page ≥ 1`,
`page_size ≥ 1` inputs the route supplies; the database rejects negative
OFFSET/LIMIT.) -/
def get_by_session_id (db : Store) (session_id : String) (page page_size : Int) :
    Except RepoError PaginatedMessages :=
  match pyUUIDParse session_id with
  | none => .error (.badRequest "Invalid session ID")
  | some u =>
    let msgs := db.messages.filter fun m => m.session_id == u
    let pageMsgs := (msgs.drop ((page - 1) * page_size).toNat).take page_size.toNat
    .ok { messages := pageMsgs.map mkMessageResponse, total := msgs.length,
          page := page, page_size := page_size }

/-- One step of a sequence of caller updates through the session path: apply
`session_update` (no injected store failure) and keep the resulting store. -/
def applyUpdates (db : Store) (ops : List (String × ChatSessionUpdate × Nat)) :
    Store :=
  ops.foldl (fun st op => (session_update st op.1 op.2.1 op.2.2 false "").store) db

/-! ## Lemmas about the string primitives -/

theorem leadsWith_mem {pat s : List Char} (h : leadsWith pat s = true) :
    ∀ c ∈ pat, c ∈ s := by
  induction pat generalizing s with
  | nil => intro c hc; cases hc
  | cons p ps ih =>
    cases s with
    | nil => simp [leadsWith] at h
    | cons a as =>
      simp only [leadsWith, Bool.and_eq_true, beq_iff_eq] at h
      intro c hc
      rcases List.mem_cons.mp hc with rfl | hc
      · exact h.1 ▸ List.mem_cons_self _ _
      · exact List.mem_cons_of_mem _ (ih h.2 c hc)

theorem replaceAllFuel_of_not_mem {c₀ : Char} {pat : List Char}
    (hc : c₀ ∈ pat) :
    ∀ (f : Nat) (s : List Char), c₀ ∉ s → replaceAllFuel f pat s = s := by
  intro f
  induction f with
  | zero => intro s _; rfl
  | succ f ih =>
    intro s hs
    cases s with
    | nil => rfl
    | cons a as =>
      have hlead : (pat ≠ [] && leadsWith pat (a :: as)) = false := by
        by_cases hl : leadsWith pat (a :: as) = true
        · exact absurd (leadsWith_mem hl c₀ hc) hs
        · simp [Bool.eq_false_iff.mpr hl]
      simp only [replaceAllFuel, hlead, Bool.false_eq_true, if_false]
      have : c₀ ∉ as := fun h => hs (List.mem_cons_of_mem _ h)
      rw [ih as this]

theorem replaceAll_of_not_mem (c₀ : Char) {pat s : List Char}
    (hc : c₀ ∈ pat) (hs : c₀ ∉ s) : replaceAll pat s = s :=
  replaceAllFuel_of_not_mem hc s.length s hs

theorem replaceAllFuel_singleton (d : Char) :
    ∀ (f : Nat) (s : List Char), s.length ≤ f →
      replaceAllFuel f [d] s = s.filter (fun c => !(c == d)) := by
  intro f
  induction f with
  | zero =>
    intro s hs
    have : s = [] := List.eq_nil_of_length_eq_zero (Nat.le_zero.mp hs)
    subst this; rfl
  | succ f ih =>
    intro s hs
    cases s with
    | nil => rfl
    | cons a as =>
      have hlen : as.length ≤ f := Nat.le_of_succ_le_succ hs
      by_cases hd : d = a
      · subst hd
        have : ([d] ≠ [] && leadsWith [d] (d :: as)) = true := by
          simp [leadsWith]
        simp only [replaceAllFuel, this, if_true, List.drop_succ_cons,
          List.drop_zero, List.filter_cons, beq_self_eq_true, Bool.not_true,
          Bool.false_eq_true, if_false]
        exact ih as hlen
      · have : ([d] ≠ [] && leadsWith [d] (a :: as)) = false := by
          simp [leadsWith, hd]
        simp only [replaceAllFuel, this, Bool.false_eq_true, if_false,
          List.filter_cons]
        have hne : (!(a == d)) = true := by
          simp [beq_iff_eq]; exact fun h => hd h.symm
        rw [hne, if_pos rfl, ih as hlen]

theorem replaceAll_singleton (d : Char) (s : List Char) :
    replaceAll [d] s = s.filter (fun c => !(c == d)) :=
  replaceAllFuel_singleton d s.length s (Nat.le_refl _)

theorem dropWhile_eq_self_of_forall {p : Char → Bool} {l : List Char}
    (h : ∀ c ∈ l, p c = false) : l.dropWhile p = l := by
  cases l with
  | nil => rfl
  | cons a as =>
    rw [List.dropWhile_cons, h a (List.mem_cons_self _ _)]
    simp

theorem stripBraces_eq_self {l : List Char}
    (h : ∀ c ∈ l, isBraceChar c = false) : stripBraces l = l := by
  unfold stripBraces
  rw [dropWhile_eq_self_of_forall h]
  rw [dropWhile_eq_self_of_forall (fun c hc => h c (List.mem_reverse.mp hc))]
  exact List.reverse_reverse l

/-! ## Lemmas about hexadecimal digits -/

theorem hexChar_isHex : ∀ d < 16, isHexDigitChar (hexChar d) = true := by decide

theorem hexChar_ne_hyphen : ∀ d < 16, (hexChar d == '-') = false := by decide

theorem hexChar_ne_colon : ∀ d < 16, hexChar d ≠ ':' := by decide

theorem hexChar_not_brace : ∀ d < 16, isBraceChar (hexChar d) = false := by decide

theorem hexVal_hexChar : ∀ d < 16, hexVal (hexChar d) = d := by decide

theorem toHexDigits_length (k : Nat) : ∀ n, (toHexDigits n k).length = k := by
  induction k with
  | zero => intro n; rfl
  | succ k ih =>
    intro n
    simp [toHexDigits, ih]

theorem toHexDigits_mem (k : Nat) :
    ∀ n, ∀ c ∈ toHexDigits n k, ∃ d, d < 16 ∧ c = hexChar d := by
  induction k with
  | zero => intro n c hc; cases hc
  | succ k ih =>
    intro n c hc
    rcases List.mem_append.mp hc with h | h
    · exact ih (n / 16) c h
    · rcases List.mem_singleton.mp h with rfl
      exact ⟨n % 16, Nat.mod_lt _ (by omega), rfl⟩

theorem hexFold_append_digit (A : List Char) (c : Char) :
    hexFold (A ++ [c]) = hexFold A * 16 + hexVal c := by
  unfold hexFold
  rw [List.foldl_append]
  rfl

theorem hexFold_toHexDigits (k : Nat) :
    ∀ n, hexFold (toHexDigits n k) = n % 16 ^ k := by
  induction k with
  | zero => intro n; simp [toHexDigits, hexFold, Nat.mod_one]
  | succ k ih =>
    intro n
    rw [toHexDigits, hexFold_append_digit, ih (n / 16),
      hexVal_hexChar (n % 16) (Nat.mod_lt _ (by omega))]
    rw [Nat.pow_succ]
    rw [Nat.mul_comm (16 ^ k) 16, Nat.mod_mul]
    omega

/-- Regrouping the 8-4-4-4-12 hyphen groups reassembles the original list. -/
theorem take_drop_regroup (l : List Char) :
    l.take 8 ++ (l.drop 8).take 4 ++ (l.drop 12).take 4 ++ (l.drop 16).take 4
      ++ l.drop 20 = l := by
  have e20 : l.drop 20 = (l.drop 16).drop 4 := by simp [List.drop_drop]
  have e16 : l.drop 16 = (l.drop 12).drop 4 := by simp [List.drop_drop]
  have e12 : l.drop 12 = (l.drop 8).drop 4 := by simp [List.drop_drop]
  simp only [List.append_assoc]
  rw [e20, List.take_append_drop, e16, List.take_append_drop, e12,
    List.take_append_drop, List.take_append_drop]

/-- Every character of a hyphenated digit group list is a hyphen or one of the
digits. -/
theorem uuidHyphenate_mem {h : List Char} :
    ∀ c ∈ uuidHyphenate h, c = '-' ∨ c ∈ h := by
  intro c hc
  unfold uuidHyphenate at hc
  simp only [List.append_assoc, List.cons_append, List.mem_append,
    List.mem_cons] at hc
  rcases hc with h1 | h1 | h1 | h1 | h1 | h1 | h1 | h1 | h1
  · exact Or.inr (List.take_subset _ _ h1)
  · exact Or.inl h1
  · exact Or.inr (List.drop_subset _ _ (List.take_subset _ _ h1))
  · exact Or.inl h1
  · exact Or.inr (List.drop_subset _ _ (List.take_subset _ _ h1))
  · exact Or.inl h1
  · exact Or.inr (List.drop_subset _ _ (List.take_subset _ _ h1))
  · exact Or.inl h1
  · exact Or.inr (List.drop_subset _ _ h1)

/-- Parsing a hyphenated list of 32 hexadecimal digit characters recovers the
folded value. -/
theorem pyUUIDParse_hyphenated (h : List Char) (hlen : h.length = 32)
    (hmem : ∀ c ∈ h, ∃ d, d < 16 ∧ c = hexChar d) :
    pyUUIDParse (String.mk (uuidHyphenate h)) = some (hexFold h) := by
  have memL : ∀ c ∈ uuidHyphenate h, c = '-' ∨ ∃ d, d < 16 ∧ c = hexChar d := by
    intro c hc
    rcases uuidHyphenate_mem c hc with h1 | h1
    · exact Or.inl h1
    · exact Or.inr (hmem c h1)
  have hcolon : (':' : Char) ∉ uuidHyphenate h := by
    intro hc
    rcases memL _ hc with h1 | ⟨d, hd, h1⟩
    · exact absurd h1 (by decide)
    · exact hexChar_ne_colon d hd h1.symm
  have hurn : replaceAll "urn:".toList (uuidHyphenate h) = uuidHyphenate h :=
    replaceAll_of_not_mem ':' (by decide) hcolon
  have huuid : replaceAll "uuid:".toList (uuidHyphenate h) = uuidHyphenate h :=
    replaceAll_of_not_mem ':' (by decide) hcolon
  have hbrace : stripBraces (uuidHyphenate h) = uuidHyphenate h := by
    refine stripBraces_eq_self (fun c hc => ?_)
    rcases memL _ hc with h1 | ⟨d, hd, h1⟩
    · rw [h1]; decide
    · rw [h1]; exact hexChar_not_brace d hd
  have hgroup : ∀ (g : List Char), (∀ c ∈ g, c ∈ h) →
      g.filter (fun c => !(c == '-')) = g := by
    intro g hg
    refine List.filter_eq_self.mpr (fun c hc => ?_)
    rcases hmem c (hg c hc) with ⟨d, hd, rfl⟩
    rw [Bool.not_eq_true', hexChar_ne_hyphen d hd]
  have hhyphen : (uuidHyphenate h).filter (fun c => !(c == '-')) = h := by
    unfold uuidHyphenate
    simp only [List.filter_append, List.filter_cons, beq_self_eq_true,
      Bool.not_true, Bool.false_eq_true, if_false]
    rw [hgroup _ (fun c hc => List.take_subset _ _ hc),
      hgroup _ (fun c hc => List.drop_subset _ _ (List.take_subset _ _ hc)),
      hgroup _ (fun c hc => List.drop_subset _ _ (List.take_subset _ _ hc)),
      hgroup _ (fun c hc => List.drop_subset _ _ (List.take_subset _ _ hc)),
      hgroup _ (fun c hc => List.drop_subset _ _ hc)]
    exact take_drop_regroup h
  have hall : h.all isHexDigitChar = true := by
    refine List.all_eq_true.mpr (fun c hc => ?_)
    rcases hmem c hc with ⟨d, hd, rfl⟩
    exact hexChar_isHex d hd
  have htoList : (String.mk (uuidHyphenate h)).toList = uuidHyphenate h := rfl
  simp only [pyUUIDParse, htoList, hurn, huuid, hbrace, replaceAll_singleton,
    hhyphen, hlen, hall]
  simp

/-- Printing a UUID value and parsing it back is the identity: the canonical
string a response carries is accepted by `uuid.UUID` and denotes the same
value. -/
theorem pyUUIDParse_uuidToString (n : Nat) (hn : n < 16 ^ 32) :
    pyUUIDParse (uuidToString n) = some n := by
  rw [uuidToString, pyUUIDParse_hyphenated (toHexDigits n 32)
    (toHexDigits_length 32 n) (toHexDigits_mem 32 n),
    hexFold_toHexDigits 32 n, Nat.mod_eq_of_lt hn]

/-! ## List helper lemmas -/

theorem find?_append_none {α : Type} {p : α → Bool} {l₁ l₂ : List α}
    (h : l₁.find? p = none) : (l₁ ++ l₂).find? p = l₂.find? p := by
  induction l₁ with
  | nil => rfl
  | cons a t ih =>
    simp only [List.find?_cons] at h
    simp only [List.cons_append, List.find?_cons]
    cases hp : p a with
    | false =>
      simp only [hp] at h ⊢
      exact ih h
    | true =>
      simp only [hp] at h
      cases h

theorem filter_not_filter {α : Type} (q : α → Bool) (l : List α) :
    (l.filter fun a => !(q a)).filter q = [] := by
  induction l with
  | nil => rfl
  | cons a t ih =>
    by_cases h : q a = true
    · simp [List.filter_cons, h, ih]
    · simp [List.filter_cons, Bool.eq_false_iff.mpr h, ih]

/-! ## Concrete fixture used by the witnesses: one session (id 1) owning three
messages. -/

/-- A concrete store: session `1` with three messages. -/
def dbW : Store :=
  ⟨[⟨1, some "s", "u1", some false, 10, 10⟩],
   [⟨5, 1, "user", "a", none, 1⟩, ⟨6, 1, "user", "b", none, 2⟩,
    ⟨7, 1, "user", "c", none, 3⟩]⟩

/-! ## Claim theorems -/

/-- C1: for a session holding `M` stored messages, `list_by_session` at page
`p ≥ 1` and size `s ≥ 1` returns exactly `min (max (M - (p-1)*s) 0) s`
messages and `total = M`; an offset at or beyond `M` yields an empty message
list while `total` still equals `M`. -/
theorem list_by_session_pagination (db : Store) (sid : String) (u : Nat)
    (p s : Int) (hu : pyUUIDParse sid = some u) (hp : 1 ≤ p) (hs : 1 ≤ s) :
    ∃ pm, get_by_session_id db sid p s = .ok pm ∧
      pm.total = (db.messages.filter fun m => m.session_id == u).length ∧
      (pm.messages.length : Int)
        = min (max (((db.messages.filter fun m => m.session_id == u).length : Int)
            - (p - 1) * s) 0) s ∧
      (((db.messages.filter fun m => m.session_id == u).length : Int) ≤ (p - 1) * s
        → pm.messages = []) := by
  unfold get_by_session_id
  rw [hu]
  refine ⟨_, rfl, rfl, ?_, ?_⟩
  · rw [List.length_map, List.length_take, List.length_drop]
    have ho : 0 ≤ (p - 1) * s := mul_nonneg (by omega) (by omega)
    generalize hM : (db.messages.filter fun m => m.session_id == u).length = M
    generalize hO : (p - 1) * s = o at ho ⊢
    have h1 : ((min s.toNat (M - o.toNat) : Nat) : Int)
        = min (s.toNat : Int) ((M - o.toNat : Nat) : Int) := by
      push_cast
      rfl
    rw [h1]
    omega
  · intro hle
    have ho : 0 ≤ (p - 1) * s := mul_nonneg (by omega) (by omega)
    have : (db.messages.filter fun m => m.session_id == u).length
        ≤ ((p - 1) * s).toNat := by omega
    rw [List.drop_eq_nil_of_le this]
    simp

/-- C1 witness: page 2 of size 2 over three stored messages holds exactly one
message. -/
theorem list_by_session_pagination_witness :
    ∃ pm, get_by_session_id dbW (uuidToString 1) 2 2 = .ok pm ∧
      pm.total = (dbW.messages.filter fun m => m.session_id == 1).length ∧
      (pm.messages.length : Int)
        = min (max (((dbW.messages.filter fun m => m.session_id == 1).length : Int)
            - (2 - 1) * 2) 0) 2 ∧
      (((dbW.messages.filter fun m => m.session_id == 1).length : Int) ≤ (2 - 1) * 2
        → pm.messages = []) :=
  list_by_session_pagination dbW (uuidToString 1) 1 2 2 (by decide) (by decide)
    (by decide)

/-- C2: a malformed identifier string is answered by `get`/`update`/`delete`
with 400 "Invalid ID format" before any store access; a well-formed identifier
matching no stored session is answered with 404 "ChatSession not found". -/
theorem id_error_taxonomy (db : Store) (bad good : String) (u : Nat)
    (q : ChatSessionUpdate) (now : Nat) (cause : String)
    (hbad : pyUUIDParse bad = none)
    (hgood : pyUUIDParse good = some u)
    (habsent : ∀ r ∈ db.sessions, r.id ≠ u) :
    (session_get db bad).result = .error (.badRequest "Invalid ID format") ∧
    (session_get db bad).storeAccesses = 0 ∧
    (session_update db bad q now false cause).result
      = .error (.badRequest "Invalid ID format") ∧
    (session_update db bad q now false cause).storeAccesses = 0 ∧
    (session_delete db bad false cause).result
      = .error (.badRequest "Invalid ID format") ∧
    (session_delete db bad false cause).storeAccesses = 0 ∧
    (session_get db good).result = .error (.notFound "ChatSession not found") ∧
    (session_update db good q now false cause).result
      = .error (.notFound "ChatSession not found") ∧
    (session_delete db good false cause).result
      = .error (.notFound "ChatSession not found") := by
  have hfind : db.sessions.find? (fun r => r.id == u) = none :=
    List.find?_eq_none.mpr fun r hr => by
      simp only [beq_iff_eq]
      exact habsent r hr
  unfold session_get session_update session_delete
  rw [hbad, hgood]
  simp [hfind]

/-- C2 witness: `"not-a-uuid"` gets 400 with zero store accesses and the
canonical string of the unassigned id 42 gets 404, on all three operations. -/
theorem id_error_taxonomy_witness :
    (session_get dbW "not-a-uuid").result
      = .error (.badRequest "Invalid ID format") ∧
    (session_get dbW "not-a-uuid").storeAccesses = 0 ∧
    (session_update dbW "not-a-uuid" ⟨none, none⟩ 0 false "").result
      = .error (.badRequest "Invalid ID format") ∧
    (session_update dbW "not-a-uuid" ⟨none, none⟩ 0 false "").storeAccesses = 0 ∧
    (session_delete dbW "not-a-uuid" false "").result
      = .error (.badRequest "Invalid ID format") ∧
    (session_delete dbW "not-a-uuid" false "").storeAccesses = 0 ∧
    (session_get dbW (uuidToString 42)).result
      = .error (.notFound "ChatSession not found") ∧
    (session_update dbW (uuidToString 42) ⟨none, none⟩ 0 false "").result
      = .error (.notFound "ChatSession not found") ∧
    (session_delete dbW (uuidToString 42) false "").result
      = .error (.notFound "ChatSession not found") :=
  id_error_taxonomy dbW "not-a-uuid" (uuidToString 42) 42 ⟨none, none⟩ 0 ""
    (by decide) (by decide) (by decide)

/-- C3 counterexample: the claim's universal success fails.  (i) The payload
supplying the subset `\x7bis_favorite\x7d` with an explicit null commits NULL and
then fails response validation — Pydantic's `ValidationError` is a
`ValueError`, so the call returns 400 "Invalid ID format" instead of
succeeding.  (ii) Even for the empty subset, `updated_at` — a field not
present in the payload — changes (10 to 50) via the column's `onupdate`
clock. -/
theorem update_subset_counterexample :
    (session_update dbW (uuidToString 1) ⟨none, some none⟩ 50 false "").result
      = .error (.badRequest "Invalid ID format") ∧
    (∃ resp,
      (session_update dbW (uuidToString 1) ⟨none, none⟩ 50 false "").result
        = .ok resp ∧ resp.updated_at = 50) ∧
    (dbW.sessions.map fun r => r.updated_at) = [10] ∧ (50 : Nat) ≠ 10 := by
  refine ⟨by decide, ⟨⟨uuidToString 1, some "s", "u1", false, 10, 50⟩,
    by decide, rfl⟩, by decide, by decide⟩

/-- C3 (amended): for every existing session and update payload supplying any
subset of the mutable fields (the empty subset included), provided the
resulting `is_favorite` is not null (the payload does not set it to null, nor
omit it while the stored value is null), the update succeeds; the caller-facing
fields (`id`, `name`, `user_id`, `is_favorite`, `created_at`) not explicitly
present in the payload are unchanged, while `updated_at` is refreshed by the
store clock. -/
theorem update_partial_frame (db : Store) (idStr : String) (u : Nat)
    (r : SessionRow) (q : ChatSessionUpdate) (now : Nat) (cause : String)
    (hparse : pyUUIDParse idStr = some u)
    (hfind : db.sessions.find? (fun s => s.id == u) = some r)
    (hfav : q.is_favorite.getD r.is_favorite ≠ none) :
    ∃ resp, (session_update db idStr q now false cause).result = .ok resp ∧
      resp.id = uuidToString r.id ∧
      (q.name = none → resp.name = r.name) ∧
      (q.is_favorite = none → some resp.is_favorite = r.is_favorite) ∧
      resp.user_id = r.user_id ∧ resp.created_at = r.created_at ∧
      resp.updated_at = now := by
  obtain ⟨b, hb⟩ : ∃ b, q.is_favorite.getD r.is_favorite = some b := by
    cases h : q.is_favorite.getD r.is_favorite
    · exact absurd h hfav
    · exact ⟨_, rfl⟩
  have happ : (applyUpdate r q now).is_favorite = some b := hb
  unfold session_update
  rw [hparse]
  simp only [hfind, Bool.false_eq_true, if_false, sessionResponseOf?, happ]
  refine ⟨_, rfl, rfl, ?_, ?_, rfl, rfl, rfl⟩
  · intro hn
    simp [applyUpdate, hn]
  · intro hn
    rw [hn] at hb
    simpa using hb.symm

/-- C3 witness: updating the fixture session with the empty payload succeeds
and leaves every caller-facing field unchanged. -/
theorem update_partial_frame_witness :
    ∃ resp,
      (session_update dbW (uuidToString 1) ⟨none, none⟩ 50 false "").result
        = .ok resp ∧
      resp.id = uuidToString 1 ∧
      ((⟨none, none⟩ : ChatSessionUpdate).name = none → resp.name = some "s") ∧
      ((⟨none, none⟩ : ChatSessionUpdate).is_favorite = none
        → some resp.is_favorite = some false) ∧
      resp.user_id = "u1" ∧ resp.created_at = 10 ∧ resp.updated_at = 50 :=
  update_partial_frame dbW (uuidToString 1) 1 ⟨1, some "s", "u1", some false, 10, 10⟩
    ⟨none, none⟩ 50 "" (by decide) (by decide) (by decide)

/-- C4: deleting a session removes the session row itself — no row with that
id remains and a subsequent `get` with the same id returns 404 — and every one
of its messages, as one operation; `list_by_session` for that id afterwards
returns `total = 0` and an empty page. -/
theorem delete_cascades (db : Store) (sid : String) (u : Nat) (cause : String)
    (p s : Int) (hu : pyUUIDParse sid = some u)
    (hex : (db.sessions.find? fun r => r.id == u).isSome = true) :
    (session_delete db sid false cause).result
      = .ok "ChatSession deleted successfully" ∧
    ((session_delete db sid false cause).store.sessions.filter
      fun r => r.id == u) = [] ∧
    (session_get (session_delete db sid false cause).store sid).result
      = .error (.notFound "ChatSession not found") ∧
    ((session_delete db sid false cause).store.messages.filter
      fun m => m.session_id == u) = [] ∧
    (∃ pm, get_by_session_id (session_delete db sid false cause).store sid p s
        = .ok pm ∧ pm.total = 0 ∧ pm.messages = []) := by
  obtain ⟨r, hr⟩ := Option.isSome_iff_exists.mp hex
  have hempty : ((db.messages.filter fun m => !(m.session_id == u)).filter
      fun m => m.session_id == u) = [] := filter_not_filter _ _
  have hsempty : ((db.sessions.filter fun r => !(r.id == u)).filter
      fun r => r.id == u) = [] := filter_not_filter _ _
  have hget : (db.sessions.filter fun r => !(r.id == u)).find?
      (fun r => r.id == u) = none :=
    List.find?_eq_none.mpr fun x hx => by
      have h2 := (List.mem_filter.mp hx).2
      simp only [Bool.not_eq_true'] at h2
      simp [h2]
  unfold session_delete session_get get_by_session_id
  rw [hu]
  simp only [hr, Bool.false_eq_true, if_false, hempty, hsempty, hget]
  exact ⟨trivial, trivial, trivial, trivial, _, rfl, rfl, by simp⟩

/-- C4 witness: deleting the fixture session removes the session row (a
subsequent get is 404) and its three messages, and a subsequent listing
reports zero. -/
theorem delete_cascades_witness :
    (session_delete dbW (uuidToString 1) false "").result
      = .ok "ChatSession deleted successfully" ∧
    ((session_delete dbW (uuidToString 1) false "").store.sessions.filter
      fun r => r.id == 1) = [] ∧
    (session_get (session_delete dbW (uuidToString 1) false "").store
      (uuidToString 1)).result = .error (.notFound "ChatSession not found") ∧
    ((session_delete dbW (uuidToString 1) false "").store.messages.filter
      fun m => m.session_id == 1) = [] ∧
    (∃ pm, get_by_session_id (session_delete dbW (uuidToString 1) false "").store
        (uuidToString 1) 1 10 = .ok pm ∧ pm.total = 0 ∧ pm.messages = []) :=
  delete_cascades dbW (uuidToString 1) 1 "" 1 10 (by decide) (by decide)

/-- C5 (bug evaluation): for every add-message request whose body omits
`timestamp`, the stored timestamp is `importTime` — the constant captured when
the Pydantic `Message` class body ran at module import — for every creation
clock `now`; concretely, a message created at clock 777 in a process imported
at clock 100 is stored with timestamp 100. -/
theorem message_timestamp_is_import_time :
    (∀ (db : Store) (importTime now : Nat) (sid sender content : String)
       (ctx : Option (List (String × String))) (newId : Nat),
      (match (add_message db importTime now sid sender content ctx none newId).result
       with
       | .ok resp => resp.timestamp = importTime
       | .error _ => True)) ∧
    ((add_message dbW 100 777 (uuidToString 1) "user" "hi" none none 9).result.map
      fun r => r.timestamp) = .ok 100 ∧ (777 : Nat) ≠ 100 := by
  refine ⟨?_, by decide, by decide⟩
  intro db importTime now sid sender content ctx newId
  unfold add_message message_create pyMessageModel
  cases hp : pyUUIDParse sid with
  | none => simp [hp]
  | some v =>
    by_cases hany : (db.sessions.any fun r => r.id == v) = true
    · simp [hp, hany, mkMessageResponse]
    · simp [hp, Bool.eq_false_iff.mpr hany, mkMessageResponse]

/-- C6: after creating a session, an immediate `get` with the generated id
succeeds and returns the caller-supplied fields (`name`, `user_id`) of the
create payload. -/
theorem create_then_get (db : Store) (q : ChatSessionCreate) (newId now : Nat)
    (cause : String) (hfresh : ∀ r ∈ db.sessions, r.id ≠ newId)
    (hrange : newId < 16 ^ 32) :
    ∃ resp, (session_create db q newId now false cause).result = .ok resp ∧
      ∃ g, (session_get (session_create db q newId now false cause).store
          resp.id).result = .ok g ∧
        g.name = q.name ∧ g.user_id = q.user_id := by
  have hfind : db.sessions.find? (fun r => r.id == newId) = none :=
    List.find?_eq_none.mpr fun r hr => by
      simp only [beq_iff_eq]
      exact hfresh r hr
  unfold session_create session_get
  simp only [Bool.false_eq_true, if_false, sessionResponseOf?]
  refine ⟨_, rfl, ?_⟩
  rw [pyUUIDParse_uuidToString newId hrange]
  simp only [find?_append_none hfind, List.find?_cons, beq_self_eq_true,
    sessionResponseOf?]
  exact ⟨_, rfl, rfl, rfl⟩

/-- C6 witness: creating a fresh session in the fixture store and reading it
back with the returned id yields the supplied `name` and `user_id`. -/
theorem create_then_get_witness :
    ∃ resp, (session_create dbW ⟨some "New", "u2"⟩ 3 5 false "").result
        = .ok resp ∧
      ∃ g, (session_get (session_create dbW ⟨some "New", "u2"⟩ 3 5 false "").store
          resp.id).result = .ok g ∧
        g.name = (⟨some "New", "u2"⟩ : ChatSessionCreate).name ∧
        g.user_id = (⟨some "New", "u2"⟩ : ChatSessionCreate).user_id :=
  create_then_get dbW ⟨some "New", "u2"⟩ 3 5 "" (by decide) (by decide)

/-- C7: when the store operation of a create, update, or delete call fails,
the transaction is rolled back — the resulting store equals the initial one —
and the call raises the generic 500 whose detail is a fixed string not
containing the cause; the cause goes to the log instead. -/
theorem store_failure_rollback (db : Store) (q : ChatSessionCreate)
    (qu : ChatSessionUpdate) (idStr : String) (u newId now : Nat)
    (cause : String) (hparse : pyUUIDParse idStr = some u) :
    session_create db q newId now true cause
      = ⟨.error (.internalError "Failed to create chatsession"), db, 1,
         ["Error creating ChatSession: " ++ cause]⟩ ∧
    session_update db idStr qu now true cause
      = ⟨.error (.internalError "Failed to update chatsession"), db, 1,
         ["Error updating ChatSession: " ++ cause]⟩ ∧
    session_delete db idStr true cause
      = ⟨.error (.internalError "Failed to delete chatsession"), db, 1,
         ["Error deleting ChatSession: " ++ cause]⟩ := by
  unfold session_create session_update session_delete
  rw [hparse]
  simp

/-- C7 witness: the injected failure on the fixture store leaves it unchanged
and produces the three generic errors with the cause only in the log. -/
theorem store_failure_rollback_witness :
    session_create dbW ⟨none, "u9"⟩ 8 60 true "db down"
      = ⟨.error (.internalError "Failed to create chatsession"), dbW, 1,
         ["Error creating ChatSession: " ++ "db down"]⟩ ∧
    session_update dbW (uuidToString 1) ⟨none, none⟩ 60 true "db down"
      = ⟨.error (.internalError "Failed to update chatsession"), dbW, 1,
         ["Error updating ChatSession: " ++ "db down"]⟩ ∧
    session_delete dbW (uuidToString 1) true "db down"
      = ⟨.error (.internalError "Failed to delete chatsession"), dbW, 1,
         ["Error deleting ChatSession: " ++ "db down"]⟩ :=
  store_failure_rollback dbW ⟨none, "u9"⟩ ⟨none, none⟩ (uuidToString 1) 1 8 60
    "db down" (by decide)

/-- C8: `_prepare_data` leaves no structured identifier value in any field of
the prepared dictionary, and feeding the prepared dictionary of any persisted
message row (whose `id` AND `session_id` are both UUID values) to the
response validator succeeds with the canonical string forms. -/
theorem prepare_data_serialization :
    (∀ d : List (String × PyVal),
      ((prepare_data d).all fun kv => !(kv.2.isUUID)) = true) ∧
    (∀ m : MessageRow,
      messageResponseValidate (prepare_data (messageRowDict m))
        = some (mkMessageResponse m)) := by
  constructor
  · intro d
    refine List.all_eq_true.mpr ?_
    intro kv hkv
    obtain ⟨⟨k, v⟩, hab, rfl⟩ := List.mem_map.mp hkv
    cases v <;> simp [PyVal.isUUID]
  · intro m
    cases hc : m.context <;>
      simp [messageRowDict, prepare_data, messageResponseValidate,
        mkMessageResponse, List.lookup, hc]

/-- Frame property of one `session_update` call: every session row afterwards
comes from a row before with the same `id`, `user_id` and `created_at`. -/
theorem session_update_store_frame (db : Store) (idStr : String)
    (q : ChatSessionUpdate) (now : Nat) (cause : String) :
    ∀ r' ∈ (session_update db idStr q now false cause).store.sessions,
      ∃ r ∈ db.sessions, r'.id = r.id ∧ r'.user_id = r.user_id ∧
        r'.created_at = r.created_at := by
  intro r' hr'
  unfold session_update at hr'
  cases hp : pyUUIDParse idStr with
  | none =>
    rw [hp] at hr'
    exact ⟨r', hr', rfl, rfl, rfl⟩
  | some u =>
    rw [hp] at hr'
    simp only [Bool.false_eq_true, if_false] at hr'
    cases hf : db.sessions.find? (fun r => r.id == u) with
    | none =>
      simp only [hf] at hr'
      exact ⟨r', hr', rfl, rfl, rfl⟩
    | some r0 =>
      simp only [hf] at hr'
      cases hv : sessionResponseOf? (applyUpdate r0 q now) <;>
        simp only [hv] at hr' <;>
      · obtain ⟨r, hrmem, rfl⟩ := List.mem_map.mp hr'
        cases hcond : (r.id == u) <;> simp only [hcond, Bool.false_eq_true,
          if_false, if_true] <;>
          exact ⟨r, hrmem, rfl, rfl, rfl⟩

/-- C9: through the session update path only `name` and `is_favorite` are ever
mutable — after any sequence of updates every stored row keeps the `id`,
`user_id` and `created_at` it was created with — and on every successful
update the returned `updated_at` equals the store clock of that mutation,
never a caller-supplied value. -/
theorem update_mutability_frame (db : Store)
    (ops : List (String × ChatSessionUpdate × Nat)) :
    (∀ r' ∈ (applyUpdates db ops).sessions, ∃ r ∈ db.sessions,
        r'.id = r.id ∧ r'.user_id = r.user_id ∧ r'.created_at = r.created_at) ∧
    (∀ (idStr : String) (q : ChatSessionUpdate) (now : Nat) (cause : String)
       (resp : ChatSessionResponse),
        (session_update db idStr q now false cause).result = .ok resp →
        resp.updated_at = now) := by
  constructor
  · induction ops generalizing db with
    | nil => exact fun r' h => ⟨r', h, rfl, rfl, rfl⟩
    | cons op rest ih =>
      intro r' h
      have hstep : applyUpdates db (op :: rest)
          = applyUpdates ((session_update db op.1 op.2.1 op.2.2 false "").store)
              rest := rfl
      rw [hstep] at h
      obtain ⟨r1, hr1, e1, e2, e3⟩ :=
        ih ((session_update db op.1 op.2.1 op.2.2 false "").store) r' h
      obtain ⟨r, hr, f1, f2, f3⟩ :=
        session_update_store_frame db op.1 op.2.1 op.2.2 "" r1 hr1
      exact ⟨r, hr, e1.trans f1, e2.trans f2, e3.trans f3⟩
  · intro idStr q now cause resp h
    unfold session_update at h
    cases hp : pyUUIDParse idStr with
    | none =>
      rw [hp] at h
      simp at h
    | some u =>
      rw [hp] at h
      simp only [Bool.false_eq_true, if_false] at h
      cases hf : db.sessions.find? (fun r => r.id == u) with
      | none =>
        simp only [hf] at h
        simp at h
      | some r0 =>
        simp only [hf] at h
        cases hv : sessionResponseOf? (applyUpdate r0 q now) with
        | none =>
          simp only [hv] at h
          simp at h
        | some resp' =>
          simp only [hv] at h
          simp only [Except.ok.injEq] at h
          subst h
          cases hfav : (applyUpdate r0 q now).is_favorite with
          | none => simp [sessionResponseOf?, hfav] at hv
          | some b =>
            simp only [sessionResponseOf?, hfav, Option.some.injEq] at hv
            subst hv
            rfl

/-- C9 witness: after one update setting `is_favorite` at clock 50, the
fixture row keeps its creation `user_id` and `created_at`, and the response's
`updated_at` is the clock 50. -/
theorem update_mutability_frame_witness :
    (∃ r ∈ dbW.sessions,
      (⟨1, some "s", "u1", some true, 10, 50⟩ : SessionRow).id = r.id ∧
      (⟨1, some "s", "u1", some true, 10, 50⟩ : SessionRow).user_id = r.user_id ∧
      (⟨1, some "s", "u1", some true, 10, 50⟩ : SessionRow).created_at
        = r.created_at) ∧
    (⟨uuidToString 1, some "s", "u1", true, 10, 50⟩ :
      ChatSessionResponse).updated_at = 50 :=
  ⟨(update_mutability_frame dbW
      [(uuidToString 1, ⟨none, some (some true)⟩, 50)]).1 _ (by decide),
   (update_mutability_frame dbW
      [(uuidToString 1, ⟨none, some (some true)⟩, 50)]).2 (uuidToString 1)
      ⟨none, some (some true)⟩ 50 "" _ (by decide)⟩

/-- C10: an add-message request whose path `session_id` is not a well-formed
UUID string fails with the generic 500 "Failed to create message" — the route
performs no format validation and the repository's catch-all turns the
store-level conversion failure into the internal error — never with a 400 Bad
Request; the store is untouched. -/
theorem add_message_malformed_session_id (db : Store) (importTime now : Nat)
    (sid sender content : String) (ctx : Option (List (String × String)))
    (ts? : Option Nat) (newId : Nat) (h : pyUUIDParse sid = none) :
    (add_message db importTime now sid sender content ctx ts? newId).result
      = .error (.internalError "Failed to create message") ∧
    (add_message db importTime now sid sender content ctx ts? newId).store = db ∧
    (∀ d, (add_message db importTime now sid sender content ctx ts? newId).result
      ≠ .error (.badRequest d)) := by
  unfold add_message message_create pyMessageModel
  simp [h]

/-- C10 witness: posting a message under the malformed path id `"abc"` yields
the generic 500, not a 400, and leaves the store unchanged. -/
theorem add_message_malformed_session_id_witness :
    (add_message dbW 100 777 "abc" "user" "hi" none none 9).result
      = .error (.internalError "Failed to create message") ∧
    (add_message dbW 100 777 "abc" "user" "hi" none none 9).store = dbW ∧
    (∀ d, (add_message dbW 100 777 "abc" "user" "hi" none none 9).result
      ≠ .error (.badRequest d)) :=
  add_message_malformed_session_id dbW 100 777 "abc" "user" "hi" none none 9
    (by decide)

end RagChat
